import Mathlib

/-
  Shallow embedding of the BillReview claim-adjudication pipeline:
  utils/helpers.py, core/services/normalizer.py, config/emg_config.py,
  core/validators/{modifiers,units,line_items,rates}.py and the
  orchestrator main.py (BillReviewApplication.process_file).

  Python dicts of reference rows are modelled as association lists,
  Python sets of CPT code strings as Finset String, SQL rates as Rat,
  and fallible external reads (file, database) as Except String values.
-/

/-- A normalized HCFA service line as produced by normalize_hcfa_format:
keys cpt / modifier / units / charge.  The units value is modelled by the
result of Python int(float(value)): some n when the stored value parses to
the integer n, none when it is unparseable.  The charge field is carried
nowhere by the validators and is omitted. -/
structure LineItem where
  cpt : String
  units : Option Int
  modifier : Option String
  bundle_type : Option String
deriving DecidableEq

/-- A row of the order line_items table (columns id and CPT used by
LineItemValidator.validate). -/
structure OrderLine where
  id : Int
  cpt : String
deriving DecidableEq

/-- Python str.strip: drop leading and trailing whitespace.  Written over
the character list so that the kernel can evaluate it. -/
def trim_str (s : String) : String :=
  ⟨((s.data.dropWhile Char.isWhitespace).reverse.dropWhile Char.isWhitespace).reverse⟩

/-- Python str.lower over the character list. -/
def lower_str (s : String) : String :=
  ⟨s.data.map Char.toLower⟩

/-- Python str.upper over the character list. -/
def upper_str (s : String) : String :=
  ⟨s.data.map Char.toUpper⟩

/-- Python str.replace("-", ""): drop every dash. -/
def remove_dashes (s : String) : String :=
  ⟨s.data.filter (fun c => c != '-')⟩

/-- utils/helpers.py clean_tin: remove dashes, strip whitespace, and require
exactly 9 digits, else None. -/
def clean_tin (tin : Option String) : Option String :=
  match tin with
  | none => none
  | some t =>
    let cleaned := trim_str (remove_dashes t)
    if cleaned.data.length = 9 ∧ cleaned.data.all Char.isDigit then some cleaned else none

/-- utils/helpers.py safe_int over the modelled parse result of
int(float(value)): a parseable value yields its integer, an unparseable one
yields the default (0 in every call site of the validators). -/
def safe_int (v : Option Int) (default : Int) : Int :=
  v.getD default

/-- A raw service line of the incoming HCFA document
(core/services/normalizer.py): the units key may be absent (outer none) or
hold an unparseable value (some none). -/
structure RawServiceLine where
  cpt_code : Option String
  modifiers : List String
  units : Option (Option Int)
  charge_amount : Option String
deriving DecidableEq

/-- normalize_hcfa_format, restricted to one service line: cpt from
cpt_code (Python str(None) renders a missing code as the string "None"),
modifier the comma-join of modifiers when nonempty, units the stored value
with default 1 only when the key is absent. -/
def normalize_service_line (r : RawServiceLine) : LineItem :=
  { cpt := r.cpt_code.getD "None"
    units := r.units.getD (some 1)
    modifier := if r.modifiers = [] then none else some (String.intercalate "," r.modifiers)
    bundle_type := none }

/-- normalize_hcfa_format over the service_lines list. -/
def normalize_hcfa_lines (rs : List RawServiceLine) : List LineItem :=
  rs.map normalize_service_line

/- ----------------------------------------------------------------
   config/emg_config.py
   ---------------------------------------------------------------- -/

/-- EMG_CONFIGURATIONS.BUNDLES from config/emg_config.py. -/
def EMG_BUNDLES : List (String × List String) :=
  [("EMG Visit", ["95910", "95886"]),
   ("EMG Visit - 2", ["95910", "95885"]),
   ("EMG Visit - 3", ["95913", "95886"]),
   ("EMG Visit - 4", ["95913", "95885"]),
   ("EMG Visit - 5", ["95910", "99203", "95885"]),
   ("EMG Visit - 6", ["95910", "99203", "95886"]),
   ("EMG Visit - 7", ["95909", "95885"])]

/-- EMG_CONFIGURATIONS.ALLOWED_UNITS from config/emg_config.py. -/
def EMG_ALLOWED_UNITS : List (String × Int) :=
  [("95907", 1), ("95908", 1), ("95909", 1), ("95910", 1),
   ("95911", 1), ("95912", 1), ("95913", 1),
   ("95885", 4), ("95886", 4), ("95887", 1),
   ("99203", 1)]

/- ----------------------------------------------------------------
   core/validators/units.py
   ---------------------------------------------------------------- -/

/-- UnitsValidator.MULTI_UNIT_EXEMPT_CODES. -/
def MULTI_UNIT_EXEMPT_CODES : Finset String :=
  {"95910", "95911", "95912", "95913",
   "97110", "97112", "97116", "97140", "97530",
   "76140", "96372", "96373", "96374"}

/-- UnitsValidator.is_emg_code: membership in the ALLOWED_UNITS map. -/
def is_emg_code (cpt : String) : Bool :=
  (EMG_ALLOWED_UNITS.lookup cpt).isSome

/-- UnitsValidator.get_emg_allowed_units with its default of 1. -/
def get_emg_allowed_units (cpt : String) : Int :=
  (EMG_ALLOWED_UNITS.lookup cpt).getD 1

/-- get_proc_category shared by the validators: first dim_proc row whose
proc_cd equals the code, giving its proc_category; None when absent. -/
def get_proc_category (dim_proc : List (String × String)) (cpt : String) : Option String :=
  (dim_proc.find? (fun r => r.1 = cpt)).map (fun r => r.2)

/-- UnitsValidator.detect_emg_bundle: the first EMG bundle all of whose
codes occur among the line items' cpt codes. -/
def detect_emg_bundle (line_items : List LineItem) : Option String :=
  let cpt_codes := (line_items.map (fun l => l.cpt)).toFinset
  (EMG_BUNDLES.find? (fun b => b.2.all (fun c => decide (c ∈ cpt_codes)))).map (fun b => b.1)

/-- One entry of the invalid_units list built by UnitsValidator.validate.
The is_ancillary / allowed_units / message payload is determined by the
other fields and omitted; type is "emg" or "standard" as in the source. -/
structure UnitsIssue where
  cpt : String
  units : Int
  proc_category : Option String
  type : String
deriving DecidableEq

/-- Result of UnitsValidator.validate: status plus the violation lists of
the details payload (messages omitted). -/
structure UnitsResult where
  status : String
  all_unit_issues : List UnitsIssue
  non_ancillary_violations : List UnitsIssue
  emg_violations : List UnitsIssue
  emg_bundle : Option String
deriving DecidableEq

/-- UnitsValidator.validate: per line, EMG codes are checked against their
ALLOWED_UNITS ceiling first; otherwise units > 1 is a violation unless the
category is ancillary or the code is in MULTI_UNIT_EXEMPT_CODES. -/
def units_validate (dim_proc : List (String × String)) (line_items : List LineItem) : UnitsResult :=
  let issues := line_items.filterMap (fun line =>
    let units := safe_int line.units 0
    let cpt := trim_str line.cpt
    let cat := get_proc_category dim_proc cpt
    if is_emg_code cpt then
      if units > get_emg_allowed_units cpt then
        some { cpt := cpt, units := units, proc_category := cat, type := "emg" }
      else none
    else if units > 1 then
      let is_anc := (cat.map (fun s => lower_str s == "ancillary")).getD false
      let is_ex := decide (cpt ∈ MULTI_UNIT_EXEMPT_CODES)
      if !is_anc && !is_ex then
        some { cpt := cpt, units := units, proc_category := cat, type := "standard" }
      else none
    else none)
  { status := if issues = [] then "PASS" else "FAIL"
    all_unit_issues := issues
    non_ancillary_violations := issues.filter (fun u => u.type = "standard")
    emg_violations := issues.filter (fun u => u.type = "emg")
    emg_bundle := detect_emg_bundle line_items }

/- ----------------------------------------------------------------
   core/validators/modifiers.py
   ---------------------------------------------------------------- -/

/-- settings.INVALID_MODIFIERS. -/
def INVALID_MODIFIERS : List String := ["26", "TC"]

/-- Whether the second character list starts with the first. -/
def char_starts (need hay : List Char) : Bool :=
  match need, hay with
  | [], _ => true
  | _ :: _, [] => false
  | a :: as, b :: bs => a == b && char_starts as bs

/-- Substring occurrence over character lists (Python in operator on str). -/
def char_sub (need : List Char) : List Char → Bool
  | [] => need = []
  | c :: t => char_starts need (c :: t) || char_sub need t

/-- One offending (cpt, modifier) pair of ModifierValidator.validate. -/
structure ModifierIssue where
  cpt : String
  modifier : String
deriving DecidableEq

/-- Result of ModifierValidator.validate. -/
structure ModifierResult where
  status : String
  invalid_modifiers : List ModifierIssue
deriving DecidableEq

/-- ModifierValidator.validate: a line offends when its (truthy) modifier
string, uppercased, contains one of the invalid modifiers as a substring. -/
def modifier_validate (line_items : List LineItem) : ModifierResult :=
  let invalid := line_items.filterMap (fun line =>
    match line.modifier with
    | none => none
    | some m =>
      if m = "" then none
      else if INVALID_MODIFIERS.any (fun im => char_sub im.data (upper_str m).data) then
        some { cpt := line.cpt, modifier := m }
      else none)
  { status := if invalid = [] then "PASS" else "FAIL"
    invalid_modifiers := invalid }

/- ----------------------------------------------------------------
   core/validators/line_items.py
   ---------------------------------------------------------------- -/

/-- LineItemValidator.emg_study_codes. -/
def emg_study_codes : Finset String :=
  {"95907", "95908", "95909", "95910", "95911", "95912", "95913"}

/-- LineItemValidator.emg_needle_codes. -/
def emg_needle_codes : Finset String :=
  {"95885", "95886", "95887"}

/-- LineItemValidator.emg_eval_codes (declared in the source, unused by
validate). -/
def emg_eval_codes : Finset String :=
  {"99203", "99204", "99205"}

/-- The unacceptable-CPT denylist hardcoded in LineItemValidator.validate
(and equal to settings.UNACCEPTABLE_CPTS). -/
def unacceptable_cpts : Finset String := {"51655"}

/-- Result of LineItemValidator.check_for_emg_package; the human-readable
message is omitted, the four intersections and the flag are kept. -/
structure EmgInfo where
  is_emg_package : Bool
  hcfa_study_codes : Finset String
  hcfa_needle_codes : Finset String
  order_study_codes : Finset String
  order_needle_codes : Finset String
deriving DecidableEq

/-- LineItemValidator.check_for_emg_package: both components present on the
HCFA side is a package regardless of the order side; needle-only or
study-only is a package when the order side shares that component. -/
def check_for_emg_package (hcfa_codes order_codes : Finset String) : EmgInfo :=
  let hs := hcfa_codes ∩ emg_study_codes
  let hn := hcfa_codes ∩ emg_needle_codes
  let os := order_codes ∩ emg_study_codes
  let on_codes := order_codes ∩ emg_needle_codes
  let pkg : Bool :=
    if hs ≠ ∅ ∧ hn ≠ ∅ then true
    else if hn ≠ ∅ ∧ hs = ∅ then decide (on_codes ≠ ∅)
    else if hs ≠ ∅ ∧ hn = ∅ then decide (os ≠ ∅)
    else false
  { is_emg_package := pkg
    hcfa_study_codes := hs
    hcfa_needle_codes := hn
    order_study_codes := os
    order_needle_codes := on_codes }

/-- One entry of the invalid_categories list of LineItemValidator.validate;
the constant reason string is omitted.  The source tag is "hcfa" for claim
lines and "order" for order rows. -/
structure InvalidCategory where
  cpt : String
  source : String
  category : Option String
deriving DecidableEq

/-- The invalid-category test of LineItemValidator.validate:
not cat or cat == "0" or cat.strip() == "". -/
def invalid_category : Option String → Bool
  | none => true
  | some s => s = "" || s = "0" || trim_str s = ""

/-- Result dictionary of LineItemValidator.validate.  The message strings,
comparison_details payload and per-mismatch detail records are omitted;
mismatch_categories carries the categories of the category_mismatches
entries. -/
structure LIResult where
  status : String
  match_type : Option String
  reason : Option String
  invalid_categories : List InvalidCategory
  mismatch_categories : Finset String
  line_item_mapping : List (String × List Int)
deriving DecidableEq

/-- LineItemValidator state: the dim_proc reference table and the bundle
definitions loaded by load_bundled_cpts at construction. -/
structure LineItemValidator where
  dim_proc : List (String × String)
  bundled_cpts : List (String × List String)

/-- The filtered_hcfa_lines of LineItemValidator.validate: claim lines with
the unacceptable codes removed. -/
def filtered_hcfa_lines (hcfa_lines : List LineItem) : List LineItem :=
  hcfa_lines.filter (fun l => decide (l.cpt ∉ unacceptable_cpts))

/-- The hcfa_codes set of LineItemValidator.validate. -/
def hcfa_code_set (hcfa_lines : List LineItem) : Finset String :=
  ((filtered_hcfa_lines hcfa_lines).map (fun l => l.cpt)).toFinset

/-- The order_codes set of LineItemValidator.validate. -/
def order_code_set (order_lines : List OrderLine) : Finset String :=
  (order_lines.map (fun l => l.cpt)).toFinset

/-- The invalid_categories list of LineItemValidator.validate step 4: one
entry per filtered claim line with a missing/invalid category (source
"hcfa"), then one per order row with one (source "order"). -/
def invalid_categories_of (dim_proc : List (String × String)) (hcfa_lines : List LineItem) (order_lines : List OrderLine) : List InvalidCategory :=
  (filtered_hcfa_lines hcfa_lines).filterMap (fun l =>
    let cat := get_proc_category dim_proc l.cpt
    if invalid_category cat then some { cpt := l.cpt, source := "hcfa", category := cat }
    else (none : Option InvalidCategory))
  ++ order_lines.filterMap (fun l =>
    let cat := get_proc_category dim_proc l.cpt
    if invalid_category cat then some { cpt := l.cpt, source := "order", category := cat }
    else (none : Option InvalidCategory))

/-- The hcfa_categories / order_categories value for one code:
get_proc_category with fallback "unknown". -/
def cat_or_unknown (dim_proc : List (String × String)) (cpt : String) : String :=
  (get_proc_category dim_proc cpt).getD "unknown"

/-- The ancillary_codes set built from the filtered HCFA lines:
codes whose (truthy) category lowercases to "ancillary". -/
def ancillary_codes_of (dim_proc : List (String × String)) (hcfa_codes : Finset String) : Finset String :=
  hcfa_codes.filter (fun c =>
    (match get_proc_category dim_proc c with
     | none => false
     | some s => s != "" && lower_str s == "ancillary") = true)

/-- Per-category count of non-ancillary distinct codes on one side
(the Python dicts hcfa_category_counts / order_category_counts are keyed by
distinct cpt, so duplicates of a code count once). -/
def category_count (dim_proc : List (String × String)) (codes anc : Finset String) (cat : String) : Nat :=
  ((codes \ anc).filter (fun c => cat_or_unknown dim_proc c = cat)).card

/-- LineItemValidator.validate, steps 1-7 of the source in order: EMG
package first, then exact set match, then per-code category validation
(failing on any missing/invalid category), then per-category count
comparison excluding ancillary codes and tolerating EMG shortfalls, else a
category match. -/
def LineItemValidator.validate (v : LineItemValidator) (hcfa_lines : List LineItem) (order_lines : List OrderLine) : LIResult :=
  let filtered := filtered_hcfa_lines hcfa_lines
  let hcfa_codes := hcfa_code_set hcfa_lines
  let order_codes := order_code_set order_lines
  let emg_info := check_for_emg_package hcfa_codes order_codes
  if emg_info.is_emg_package then
    { status := "PASS", match_type := some "emg_package_match", reason := none
      invalid_categories := [], mismatch_categories := ∅, line_item_mapping := [] }
  else if hcfa_codes = order_codes then
    { status := "PASS", match_type := some "exact_match", reason := none
      invalid_categories := [], mismatch_categories := ∅, line_item_mapping := [] }
  else
    let mapping := (filtered.map (fun l => l.cpt)).dedup.filterMap (fun c =>
      let ids := (order_lines.filter (fun ol => ol.cpt = c)).map (fun ol => ol.id)
      if ids = [] then (none : Option (String × List Int)) else some (c, ids))
    let invalid_cats := invalid_categories_of v.dim_proc hcfa_lines order_lines
    if invalid_cats ≠ [] then
      { status := "FAIL", match_type := none
        reason := some "Missing or invalid procedure categories"
        invalid_categories := invalid_cats, mismatch_categories := ∅, line_item_mapping := [] }
    else
      let anc := ancillary_codes_of v.dim_proc hcfa_codes
      let mismatches := ((hcfa_codes \ anc).image (cat_or_unknown v.dim_proc)).filter (fun cat =>
        category_count v.dim_proc order_codes anc cat < category_count v.dim_proc hcfa_codes anc cat
          ∧ upper_str cat ≠ "EMG")
      if mismatches ≠ ∅ then
        { status := "FAIL", match_type := none
          reason := some "Category count mismatch"
          invalid_categories := [], mismatch_categories := mismatches, line_item_mapping := [] }
      else
        { status := "PASS", match_type := some "category_match", reason := none
          invalid_categories := [], mismatch_categories := ∅, line_item_mapping := mapping }

/- ----------------------------------------------------------------
   core/validators/rates.py
   ---------------------------------------------------------------- -/

/-- The provider record returned by get_provider_details, restricted to the
fields RateValidator.validate reads. -/
structure ProviderDetails where
  tin : Option String
  provider_network : Option String
deriving DecidableEq

/-- A row of the ppo negotiated-rate table. -/
structure PpoRow where
  tin : String
  proc_cd : String
  rate : Rat
deriving DecidableEq

/-- A row of the current_otas one-time-agreement table. -/
structure OtaRow where
  order_id : String
  cpt : String
  rate : Rat
deriving DecidableEq

/-- The reference data RateValidator.validate reads from the database:
provider record for the order (None when absent), the dim_proc dict, and
the two rate tables. -/
structure RateCtx where
  provider : Option ProviderDetails
  proc_categories : List (String × String)
  ppo : List PpoRow
  otas : List OtaRow
deriving DecidableEq

/-- The PPO query SELECT rate FROM ppo WHERE TRIM(TIN) = ? AND proc_cd = ?
with the cleaned provider TIN as parameter: a NULL parameter (clean_tin
returned None) compares equal to no row; otherwise the first matching
row's rate. -/
def ppo_lookup (ppo : List PpoRow) (ctin : Option String) (cpt : String) : Option Rat :=
  match ctin with
  | none => none
  | some t => (ppo.find? (fun r => trim_str r.tin = t ∧ r.proc_cd = cpt)).map (fun r => r.rate)

/-- The OTA query keyed by (order id, CPT); a NULL order id matches no row. -/
def ota_lookup (otas : List OtaRow) (oid : Option String) (cpt : String) : Option Rat :=
  match oid with
  | none => none
  | some o => (otas.find? (fun r => r.order_id = o ∧ r.cpt = cpt)).map (fun r => r.rate)

/-- One entry of the rate_results list (the spread-in claim-line fields and
the message are omitted; validated_rate is determined by status and
rate_source). -/
structure RateLineResult where
  cpt : String
  status : String
  base_rate : Option Rat
  unit_adjusted_rate : Option Rat
  rate_source : Option String
deriving DecidableEq

/-- The ancillary test of rates.py:
cpt in proc_categories and proc_categories[cpt].lower() == 'ancillary'. -/
def rate_is_ancillary (proc_categories : List (String × String)) (cpt : String) : Bool :=
  match proc_categories.lookup cpt with
  | none => false
  | some cat => lower_str cat == "ancillary"

/-- The per-line body of the loop in RateValidator.validate, in source
order: bundle sentinel, ancillary zero rate, PPO rate, OTA rate, failure. -/
def rate_line (ctx : RateCtx) (ctin : Option String) (oid : Option String) (line : LineItem) : RateLineResult :=
  let cpt := line.cpt
  let units := safe_int line.units 0
  if line.bundle_type.isSome then
    { cpt := cpt, status := "PASS", base_rate := none, unit_adjusted_rate := none
      rate_source := some "Bundle" }
  else if rate_is_ancillary ctx.proc_categories cpt then
    { cpt := cpt, status := "PASS", base_rate := some 0, unit_adjusted_rate := some 0
      rate_source := some "Ancillary" }
  else match ppo_lookup ctx.ppo ctin cpt with
    | some r =>
      { cpt := cpt, status := "PASS", base_rate := some r
        unit_adjusted_rate := some (r * (units : Rat)), rate_source := some "PPO" }
    | none => match ota_lookup ctx.otas oid cpt with
      | some r =>
        { cpt := cpt, status := "PASS", base_rate := some r
          unit_adjusted_rate := some (r * (units : Rat)), rate_source := some "OTA" }
      | none =>
        { cpt := cpt, status := "FAIL", base_rate := none, unit_adjusted_rate := none
          rate_source := none }

/-- The loop of RateValidator.validate: one result per line, accumulating
total_rate exactly in the PPO and OTA branches (the branches whose
rate_source is "PPO" or "OTA"). -/
def rate_loop (ctx : RateCtx) (ctin : Option String) (oid : Option String) : List LineItem → List RateLineResult × Rat
  | [] => ([], 0)
  | line :: rest =>
    let r := rate_line ctx ctin oid line
    let acc := rate_loop ctx ctin oid rest
    (r :: acc.1,
     (if r.rate_source = some "PPO" ∨ r.rate_source = some "OTA" then r.unit_adjusted_rate.getD 0 else 0) + acc.2)

/-- Result of RateValidator.validate (provider_details and messages
omitted). -/
structure RateResult where
  status : String
  reason : Option String
  results : List RateLineResult
  total_rate : Rat
deriving DecidableEq

/-- RateValidator.validate: hard failure when the provider record is
absent; otherwise one result per line via rate_line, overall FAIL iff any
per-line result failed. -/
def rate_validate (ctx : RateCtx) (hcfa_lines : List LineItem) (oid : Option String) : RateResult :=
  match ctx.provider with
  | none =>
    { status := "FAIL", reason := some "Provider details not found"
      results := [], total_rate := 0 }
  | some p =>
    let ctin := clean_tin p.tin
    let outcome := rate_loop ctx ctin oid hcfa_lines
    { status := if outcome.1.any (fun r => r.status == "FAIL") then "FAIL" else "PASS"
      reason := none
      results := outcome.1
      total_rate := outcome.2 }

/- ----------------------------------------------------------------
   main.py  BillReviewApplication.process_file
   ---------------------------------------------------------------- -/

/-- The normalized HCFA document fields read by process_file. -/
structure Hcfa where
  patient_name : Option String
  date_of_service : Option String
  order_id : Option String
  line_items : List LineItem
deriving DecidableEq

/-- The details payload attached to the logged verdict, one constructor per
logging site of process_file. -/
inductive VDetails where
  | err (msg : String)
  | modifier_d (m : ModifierResult)
  | units_d (u : UnitsResult)
  | bundle_d
  | li_d (r : LIResult)
  | rate_d (r : RateResult)
  | final_d (li : LIResult) (r : RateResult)
deriving DecidableEq

/-- The ValidationResult record logged once per processed claim
(core/models/validation.py); source_data and messages omitted. -/
structure Verdict where
  file_name : String
  timestamp : String
  patient_name : Option String
  date_of_service : Option String
  order_id : Option String
  status : String
  validation_type : String
  details : VDetails
deriving DecidableEq

/-- The external effects of one process_file call: the file read plus
normalization, and each database read, any of which may raise; the
reference tables loaded for the run are plain values. -/
structure Env where
  file_read : Except String Hcfa
  provider_read : Except String (Option ProviderDetails)
  full_details_read : Except String String
  bundle_read : Except String Bool
  order_lines_read : Except String (List OrderLine)
  rate_ctx_read : Except String RateCtx
  dim_proc : List (String × String)
  bundles_cfg : List (String × List String)

/-- The body of the try block of process_file: stages in source order with
their early-return logging sites, as the single verdict it logs, or the
first uncaught exception.  now is the datetime.now()_string stamped into
base_result. -/
def run_pipeline (env : Env) (file_name now : String) : Except String (List Verdict) :=
  match env.file_read with
  | Except.error e => Except.error e
  | Except.ok hcfa =>
    match env.provider_read with
    | Except.error e => Except.error e
    | Except.ok _provider_info =>
      match env.full_details_read with
      | Except.error e => Except.error e
      | Except.ok _patient_info =>
        let base := fun (status vt : String) (d : VDetails) =>
          Verdict.mk file_name now hcfa.patient_name hcfa.date_of_service hcfa.order_id status vt d
        let m := modifier_validate hcfa.line_items
        if m.status = "FAIL" then Except.ok [base "FAIL" "modifier_check" (VDetails.modifier_d m)]
        else
          let u := units_validate env.dim_proc hcfa.line_items
          if u.status = "FAIL" then Except.ok [base "FAIL" "unit_check" (VDetails.units_d u)]
          else
            match env.bundle_read with
            | Except.error e => Except.error e
            | Except.ok bundled =>
              if bundled then Except.ok [base "FAIL" "bundle_check" VDetails.bundle_d]
              else
                match env.order_lines_read with
                | Except.error e => Except.error e
                | Except.ok order_lines =>
                  let li := LineItemValidator.validate ⟨env.dim_proc, env.bundles_cfg⟩ hcfa.line_items order_lines
                  if li.status = "FAIL" then Except.ok [base "FAIL" "line_items" (VDetails.li_d li)]
                  else
                    match env.rate_ctx_read with
                    | Except.error e => Except.error e
                    | Except.ok rctx =>
                      let r := rate_validate rctx hcfa.line_items hcfa.order_id
                      if r.status = "FAIL" then Except.ok [base "FAIL" "rate" (VDetails.rate_d r)]
                      else Except.ok [base "PASS" "final" (VDetails.final_d li r)]

/-- process_file: the try body, with any raised exception converted at the
boundary into one FAIL verdict of validation_type process_error built from
the un-updated base_result fields. -/
def process_file (env : Env) (file_name now : String) : List Verdict :=
  match run_pipeline env file_name now with
  | Except.ok vs => vs
  | Except.error e =>
    [Verdict.mk file_name now none none none "FAIL" "process_error" (VDetails.err e)]

/- ----------------------------------------------------------------
   Spec-side definitions used for comparison in the theorems
   ---------------------------------------------------------------- -/

/-- Modelled from the spec: the sum of unit_adjusted_rate over rate results
with status Pass that are not bundle-tagged, used to compare against the
total_rate the code accumulates. -/
def sum_pass_nonbundled : List RateLineResult → Rat
  | [] => 0
  | r :: rs =>
    (if r.status = "PASS" ∧ r.rate_source ≠ some "Bundle" then r.unit_adjusted_rate.getD 0 else 0)
      + sum_pass_nonbundled rs

/-- A verdict with its wall-clock timestamp blanked, to compare runs taken
at different times field by field. -/
def strip_timestamp (v : Verdict) : Verdict :=
  { v with timestamp := "" }

/-- The property clean_tin tests: the TIN reduces to exactly 9 digits after
removing dashes and stripping whitespace. -/
def tin_nine_digits (t : String) : Prop :=
  (trim_str (remove_dashes t)).data.length = 9 ∧ (trim_str (remove_dashes t)).data.all Char.isDigit

/-- A concrete environment whose file read raises, used to exercise the
orchestrator's exception boundary. -/
def env_boom : Env :=
  { file_read := Except.error "boom"
    provider_read := Except.ok none
    full_details_read := Except.ok ""
    bundle_read := Except.ok false
    order_lines_read := Except.ok []
    rate_ctx_read := Except.ok ⟨none, [], [], []⟩
    dim_proc := []
    bundles_cfg := [] }

/- ----------------------------------------------------------------
   Theorems
   ---------------------------------------------------------------- -/

/-- Membership in the filtered claim code set for any claim line whose code
is not the excluded "51655". -/
theorem mem_hcfa_code_set {hl : List LineItem} {l : LineItem}
    (hmem : l ∈ hl) (hne : l.cpt ≠ "51655") : l.cpt ∈ hcfa_code_set hl := by
  simp only [hcfa_code_set, filtered_hcfa_lines, List.mem_toFinset, List.mem_map]
  refine ⟨l, ?_, rfl⟩
  simp only [List.mem_filter, decide_eq_true_eq]
  exact ⟨hmem, by simp [unacceptable_cpts, hne]⟩

/-- No EMG study code is the excluded code "51655". -/
theorem study_ne_excluded {c : String} (h : c ∈ emg_study_codes) : c ≠ "51655" := by
  simp only [emg_study_codes] at h
  fin_cases h <;> decide

/-- No EMG needle code is the excluded code "51655". -/
theorem needle_ne_excluded {c : String} (h : c ∈ emg_needle_codes) : c ≠ "51655" := by
  simp only [emg_needle_codes] at h
  fin_cases h <;> decide

/-- C1: the claim as written is false on the code.  For claim codes
95910 and 95886 with an identical order code set (the codes of the bundle
"EMG Visit"), the matcher returns status "PASS", not "bundled": validate
has no bundled status at all. -/
theorem C1_emg_visit_not_bundled_status :
    (LineItemValidator.validate ⟨[("95910", "EMG"), ("95886", "EMG")], EMG_BUNDLES⟩
      [⟨"95910", some 1, none, none⟩, ⟨"95886", some 1, none, none⟩]
      [⟨1, "95910"⟩, ⟨2, "95886"⟩]).status = "PASS" ∧
    ¬ (LineItemValidator.validate ⟨[("95910", "EMG"), ("95886", "EMG")], EMG_BUNDLES⟩
      [⟨"95910", some 1, none, none⟩, ⟨"95886", some 1, none, none⟩]
      [⟨1, "95910"⟩, ⟨2, "95886"⟩]).status = "bundled" := by
  constructor
  · rfl
  · decide

/-- C1 (amended): for the claim code set 95910, 95886 and the identical
order code set, the matcher returns status "PASS" with match_type
"emg_package_match" (the EMG package rule pre-empts any bundle handling),
for every dim_proc table and every loaded bundle configuration. -/
theorem C1_emg_visit_passes_as_emg_package (d : List (String × String)) (b : List (String × List String)) :
    (LineItemValidator.validate ⟨d, b⟩
      [⟨"95910", some 1, none, none⟩, ⟨"95886", some 1, none, none⟩]
      [⟨1, "95910"⟩, ⟨2, "95886"⟩]).status = "PASS" ∧
    (LineItemValidator.validate ⟨d, b⟩
      [⟨"95910", some 1, none, none⟩, ⟨"95886", some 1, none, none⟩]
      [⟨1, "95910"⟩, ⟨2, "95886"⟩]).match_type = some "emg_package_match" := by
  constructor <;> rfl

/-- C2: the claim as written is false on the code.  Code 95910 is in
MULTI_UNIT_EXEMPT_CODES, yet a line with units 2 produces a unit violation,
because 95910 is also an EMG code whose allowed-units ceiling of 1 is
checked before the exemption. -/
theorem C2_exempt_emg_code_still_violates :
    "95910" ∈ MULTI_UNIT_EXEMPT_CODES ∧
    (units_validate [("95910", "EMG")] [⟨"95910", some 2, none, none⟩]).all_unit_issues
      = [⟨"95910", 2, some "EMG", "emg"⟩] ∧
    (units_validate [("95910", "EMG")] [⟨"95910", some 2, none, none⟩]).status = "FAIL" := by
  refine ⟨by decide, by decide, by decide⟩

/-- C2 (amended): a unit violation recorded for a code in the unit-exempt
list can only be an EMG-ceiling violation: every violation entry whose code
is in MULTI_UNIT_EXEMPT_CODES concerns an EMG code and has type "emg", so
exempt codes outside the EMG allowed-units map never produce a violation,
whatever the category. -/
theorem C2_exempt_codes_only_emg_violations (d : List (String × String)) (lines : List LineItem) (e : UnitsIssue)
    (he : e ∈ (units_validate d lines).all_unit_issues)
    (hex : e.cpt ∈ MULTI_UNIT_EXEMPT_CODES) :
    is_emg_code e.cpt = true ∧ e.type = "emg" := by
  simp only [units_validate, List.mem_filterMap] at he
  obtain ⟨line, hline, hf⟩ := he
  by_cases h1 : is_emg_code (trim_str line.cpt) = true
  · rw [if_pos h1] at hf
    split at hf
    · cases hf
      exact ⟨h1, rfl⟩
    · cases hf
  · rw [if_neg h1] at hf
    split at hf
    · split at hf
      · cases hf
        rename_i hcond
        simp only [Bool.and_eq_true, Bool.not_eq_true'] at hcond
        dsimp at hex
        exact absurd hex (of_decide_eq_false hcond.2)
      · cases hf
    · cases hf

/-- Witness for C2 (amended) at the violation recorded for code 95910 with
units 2. -/
theorem C2_exempt_codes_only_emg_violations_witness :
    is_emg_code "95910" = true ∧ ("emg" : String) = "emg" :=
  C2_exempt_codes_only_emg_violations [("95910", "EMG")] [⟨"95910", some 2, none, none⟩]
    ⟨"95910", 2, some "EMG", "emg"⟩ (by decide) (by decide)

/-- C3: the claim as written is false on the code.  A service line whose
units value is unparseable keeps it through normalization, and the
validators' safe_int coerces it to 0, not 1, so the effective units are not
greater than or equal to 1. -/
theorem C3_unparseable_units_become_zero :
    safe_int (normalize_service_line ⟨some "99213", [], some none, some "10.00"⟩).units 0 = 0 ∧
    ¬ (1 ≤ safe_int (normalize_service_line ⟨some "99213", [], some none, some "10.00"⟩).units 0) := by
  refine ⟨by decide, by decide⟩

/-- C3 (amended): after normalization, the effective units value read by
the validators is 1 when the raw units key was absent, 0 when the stored
value was unparseable (safe_int's default), and the parsed integer
otherwise (which may be 0 or negative); only the absent case is defaulted
to 1. -/
theorem C3_normalized_units_cases (r : RawServiceLine) :
    (r.units = none → safe_int (normalize_service_line r).units 0 = 1) ∧
    (r.units = some none → safe_int (normalize_service_line r).units 0 = 0) ∧
    (∀ n : Int, r.units = some (some n) → safe_int (normalize_service_line r).units 0 = n) := by
  refine ⟨fun h => ?_, fun h => ?_, fun n h => ?_⟩ <;>
    simp [normalize_service_line, safe_int, h]

/-- Witness for C3 (amended): a line with the units key absent normalizes
to effective units 1. -/
theorem C3_normalized_units_cases_witness :
    safe_int (normalize_service_line ⟨some "99213", [], none, some "10.00"⟩).units 0 = 1 :=
  (C3_normalized_units_cases ⟨some "99213", [], none, some "10.00"⟩).1 rfl

/-- C4: a claim code set holding at least one EMG study code and at least
one EMG needle code always makes the matcher return status "PASS" as an
EMG package match, whatever the order code set and reference tables. -/
theorem C4_emg_package_always_passes (v : LineItemValidator) (hl : List LineItem) (ol : List OrderLine)
    (hs : ∃ l, l ∈ hl ∧ l.cpt ∈ emg_study_codes)
    (hn : ∃ l, l ∈ hl ∧ l.cpt ∈ emg_needle_codes) :
    (v.validate hl ol).status = "PASS" ∧
    (v.validate hl ol).match_type = some "emg_package_match" := by
  obtain ⟨ls, hls, hcs⟩ := hs
  obtain ⟨ln, hln, hcn⟩ := hn
  have hs_mem : ls.cpt ∈ hcfa_code_set hl := mem_hcfa_code_set hls (study_ne_excluded hcs)
  have hn_mem : ln.cpt ∈ hcfa_code_set hl := mem_hcfa_code_set hln (needle_ne_excluded hcn)
  have h1 : hcfa_code_set hl ∩ emg_study_codes ≠ ∅ :=
    Finset.ne_empty_of_mem (Finset.mem_inter.mpr ⟨hs_mem, hcs⟩)
  have h2 : hcfa_code_set hl ∩ emg_needle_codes ≠ ∅ :=
    Finset.ne_empty_of_mem (Finset.mem_inter.mpr ⟨hn_mem, hcn⟩)
  have hpkg : (check_for_emg_package (hcfa_code_set hl) (order_code_set ol)).is_emg_package = true := by
    unfold check_for_emg_package
    dsimp only
    rw [if_pos ⟨h1, h2⟩]
  constructor <;>
  · unfold LineItemValidator.validate
    dsimp only
    simp [hpkg]

/-- Witness for C4 at a claim holding study code 95910 and needle code
95886 against an order sharing no code with the claim. -/
theorem C4_emg_package_always_passes_witness :
    (LineItemValidator.validate ⟨[], []⟩
      [⟨"95910", some 1, none, none⟩, ⟨"95886", some 1, none, none⟩]
      [⟨1, "73221"⟩]).status = "PASS" ∧
    (LineItemValidator.validate ⟨[], []⟩
      [⟨"95910", some 1, none, none⟩, ⟨"95886", some 1, none, none⟩]
      [⟨1, "73221"⟩]).match_type = some "emg_package_match" :=
  C4_emg_package_always_passes ⟨[], []⟩
    [⟨"95910", some 1, none, none⟩, ⟨"95886", some 1, none, none⟩] [⟨1, "73221"⟩]
    ⟨⟨"95910", some 1, none, none⟩, by decide, by decide⟩
    ⟨⟨"95886", some 1, none, none⟩, by decide, by decide⟩

/-- C5: the claim as written is false on the code.  With claim and order
code sets both equal to the single code 99070 whose category is missing,
the matcher passes as an exact match before any category validation,
instead of failing with invalid categories. -/
theorem C5_equal_code_sets_pass_despite_invalid_category :
    invalid_category (get_proc_category [] "99070") = true ∧
    (LineItemValidator.validate ⟨[], []⟩ [⟨"99070", some 1, none, none⟩] [⟨1, "99070"⟩]).status = "PASS" ∧
    (LineItemValidator.validate ⟨[], []⟩ [⟨"99070", some 1, none, none⟩] [⟨1, "99070"⟩]).match_type
      = some "exact_match" ∧
    (LineItemValidator.validate ⟨[], []⟩ [⟨"99070", some 1, none, none⟩] [⟨1, "99070"⟩]).reason = none := by
  refine ⟨by decide, by decide, by decide, by decide⟩

/-- C5 (amended): when a claim contains code 99070 whose procedure category
is missing or invalid, and the claim and order code sets differ, and the
claim is not recognized as an EMG package, the matcher fails with reason
"Missing or invalid procedure categories" and an invalid_categories entry
naming cpt 99070 with source "hcfa" (the code tags claim-side entries
"hcfa", not "claim"). -/
theorem C5_invalid_category_fails_when_sets_differ (v : LineItemValidator) (hl : List LineItem) (ol : List OrderLine)
    (h99 : ∃ l, l ∈ hl ∧ l.cpt = "99070")
    (hinv : invalid_category (get_proc_category v.dim_proc "99070") = true)
    (hemg : (check_for_emg_package (hcfa_code_set hl) (order_code_set ol)).is_emg_package = false)
    (hne : hcfa_code_set hl ≠ order_code_set ol) :
    (v.validate hl ol).status = "FAIL" ∧
    (v.validate hl ol).reason = some "Missing or invalid procedure categories" ∧
    ∃ e, e ∈ (v.validate hl ol).invalid_categories ∧ e.cpt = "99070" ∧ e.source = "hcfa" := by
  obtain ⟨l, hlmem, hcpt⟩ := h99
  have hfil : l ∈ filtered_hcfa_lines hl := by
    simp [filtered_hcfa_lines, List.mem_filter, unacceptable_cpts, hlmem, hcpt]
  have hentry : (⟨"99070", "hcfa", get_proc_category v.dim_proc "99070"⟩ : InvalidCategory) ∈
      invalid_categories_of v.dim_proc hl ol := by
    unfold invalid_categories_of
    refine List.mem_append_left _ ?_
    refine List.mem_filterMap.mpr ⟨l, hfil, ?_⟩
    rw [hcpt]
    simp [hinv]
  have hnil : invalid_categories_of v.dim_proc hl ol ≠ [] := List.ne_nil_of_mem hentry
  unfold LineItemValidator.validate
  dsimp only
  rw [hemg]
  rw [if_neg (by simp)]
  rw [if_neg hne]
  rw [if_pos hnil]
  exact ⟨rfl, rfl, ⟨⟨"99070", "hcfa", get_proc_category v.dim_proc "99070"⟩, hentry, rfl, rfl⟩⟩

/-- Witness for C5 (amended): claim 99070 with no category row, order
holding 99070 and 99213. -/
theorem C5_invalid_category_fails_when_sets_differ_witness :
    (LineItemValidator.validate ⟨[], []⟩ [⟨"99070", some 1, none, none⟩]
      [⟨1, "99070"⟩, ⟨2, "99213"⟩]).status = "FAIL" ∧
    (LineItemValidator.validate ⟨[], []⟩ [⟨"99070", some 1, none, none⟩]
      [⟨1, "99070"⟩, ⟨2, "99213"⟩]).reason = some "Missing or invalid procedure categories" ∧
    ∃ e, e ∈ (LineItemValidator.validate ⟨[], []⟩ [⟨"99070", some 1, none, none⟩]
      [⟨1, "99070"⟩, ⟨2, "99213"⟩]).invalid_categories ∧ e.cpt = "99070" ∧ e.source = "hcfa" :=
  C5_invalid_category_fails_when_sets_differ ⟨[], []⟩ [⟨"99070", some 1, none, none⟩]
    [⟨1, "99070"⟩, ⟨2, "99213"⟩]
    ⟨⟨"99070", some 1, none, none⟩, by decide, rfl⟩ (by decide) (by decide) (by decide)

/-- C9: for every input the matcher's status is "PASS" or "FAIL", never
"BUNDLED" (so the orchestrator's BUNDLED branch is unreachable), and the
result does not depend on the bundle definitions loaded at construction. -/
theorem C9_line_items_status_never_bundled (d : List (String × String)) (b b2 : List (String × List String))
    (hl : List LineItem) (ol : List OrderLine) :
    ((LineItemValidator.validate ⟨d, b⟩ hl ol).status = "PASS" ∨
      (LineItemValidator.validate ⟨d, b⟩ hl ol).status = "FAIL") ∧
    (LineItemValidator.validate ⟨d, b⟩ hl ol).status ≠ "BUNDLED" ∧
    LineItemValidator.validate ⟨d, b⟩ hl ol = LineItemValidator.validate ⟨d, b2⟩ hl ol := by
  refine ⟨?_, ?_, rfl⟩ <;>
  · unfold LineItemValidator.validate
    dsimp only
    repeat' split
    all_goals simp

/-- The rate loop yields exactly one result per claim line. -/
theorem rate_loop_length (ctx : RateCtx) (ctin oid : Option String) (ls : List LineItem) :
    ((rate_loop ctx ctin oid ls).1).length = ls.length := by
  induction ls with
  | nil => rfl
  | cons l rest ih => simp [rate_loop, ih]

/-- Case analysis of a single rate-line outcome: bundle sentinel, zero-rate
ancillary, PPO or OTA rate, or failure. -/
theorem rate_line_shape (ctx : RateCtx) (ctin oid : Option String) (line : LineItem) :
    ((rate_line ctx ctin oid line).status = "PASS" ∧ (rate_line ctx ctin oid line).rate_source = some "Bundle") ∨
    ((rate_line ctx ctin oid line).status = "PASS" ∧ (rate_line ctx ctin oid line).rate_source = some "Ancillary" ∧
      (rate_line ctx ctin oid line).unit_adjusted_rate = some 0) ∨
    ((rate_line ctx ctin oid line).status = "PASS" ∧
      ((rate_line ctx ctin oid line).rate_source = some "PPO" ∨ (rate_line ctx ctin oid line).rate_source = some "OTA")) ∨
    ((rate_line ctx ctin oid line).status = "FAIL" ∧ (rate_line ctx ctin oid line).rate_source = none) := by
  unfold rate_line
  dsimp only
  repeat' split
  all_goals simp

/-- The amount the loop adds for a line equals that line's contribution to
the sum of unit_adjusted_rate over passing, non-bundled results. -/
theorem rate_line_contrib (ctx : RateCtx) (ctin oid : Option String) (line : LineItem) :
    (if (rate_line ctx ctin oid line).rate_source = some "PPO" ∨ (rate_line ctx ctin oid line).rate_source = some "OTA"
      then (rate_line ctx ctin oid line).unit_adjusted_rate.getD 0 else 0)
    = (if (rate_line ctx ctin oid line).status = "PASS" ∧ (rate_line ctx ctin oid line).rate_source ≠ some "Bundle"
      then (rate_line ctx ctin oid line).unit_adjusted_rate.getD 0 else 0) := by
  rcases rate_line_shape ctx ctin oid line with ⟨h1, h2⟩ | ⟨h1, h2, h3⟩ | ⟨h1, h2⟩ | ⟨h1, h2⟩ <;>
    simp [h1, h2]
  · simp [h3]
  · rcases h2 with h2 | h2 <;> simp [h2]

/-- The accumulated total of the rate loop equals the sum of
unit_adjusted_rate over its passing, non-bundled results. -/
theorem rate_loop_total (ctx : RateCtx) (ctin oid : Option String) (ls : List LineItem) :
    (rate_loop ctx ctin oid ls).2 = sum_pass_nonbundled (rate_loop ctx ctin oid ls).1 := by
  induction ls with
  | nil => rfl
  | cons l rest ih => simp [rate_loop, sum_pass_nonbundled, ih, rate_line_contrib]

/-- C6: with a found provider record the rate resolver yields exactly one
result per line, its status is FAIL exactly when some line failed, and
total_rate equals the sum of unit_adjusted_rate over passing, non-bundled
results. -/
theorem C6_rate_resolver_aggregation (ctx : RateCtx) (lines : List LineItem) (oid : Option String)
    (p : ProviderDetails) (hp : ctx.provider = some p) :
    (rate_validate ctx lines oid).results.length = lines.length ∧
    ((rate_validate ctx lines oid).status = "FAIL" ↔
      ∃ r, r ∈ (rate_validate ctx lines oid).results ∧ r.status = "FAIL") ∧
    (rate_validate ctx lines oid).total_rate = sum_pass_nonbundled (rate_validate ctx lines oid).results := by
  unfold rate_validate
  rw [hp]
  dsimp only
  refine ⟨rate_loop_length ctx (clean_tin p.tin) oid lines, ?_, rate_loop_total ctx (clean_tin p.tin) oid lines⟩
  by_cases h : (rate_loop ctx (clean_tin p.tin) oid lines).1.any (fun r => r.status == "FAIL") = true
  · rw [if_pos h]
    simp only [List.any_eq_true, beq_iff_eq] at h
    simpa using h
  · rw [if_neg h]
    simp only [List.any_eq_true, beq_iff_eq] at h
    push_neg at h
    constructor
    · intro hcontra
      exact absurd hcontra (by decide)
    · intro ⟨r, hr, hst⟩
      exact absurd hst (h r hr)

/-- Witness for C6: one PPO line with two units and one ancillary line,
provider TIN 123-45-6789. -/
theorem C6_rate_resolver_aggregation_witness :
    (rate_validate ⟨some ⟨some "123-45-6789", none⟩, [("70010", "ANCILLARY")], [⟨"123456789", "99213", 50⟩], []⟩
      [⟨"99213", some 2, none, none⟩, ⟨"70010", some 1, none, none⟩] none).results.length = 2 ∧
    ((rate_validate ⟨some ⟨some "123-45-6789", none⟩, [("70010", "ANCILLARY")], [⟨"123456789", "99213", 50⟩], []⟩
      [⟨"99213", some 2, none, none⟩, ⟨"70010", some 1, none, none⟩] none).status = "FAIL" ↔
      ∃ r, r ∈ (rate_validate ⟨some ⟨some "123-45-6789", none⟩, [("70010", "ANCILLARY")], [⟨"123456789", "99213", 50⟩], []⟩
        [⟨"99213", some 2, none, none⟩, ⟨"70010", some 1, none, none⟩] none).results ∧ r.status = "FAIL") ∧
    (rate_validate ⟨some ⟨some "123-45-6789", none⟩, [("70010", "ANCILLARY")], [⟨"123456789", "99213", 50⟩], []⟩
      [⟨"99213", some 2, none, none⟩, ⟨"70010", some 1, none, none⟩] none).total_rate =
      sum_pass_nonbundled (rate_validate ⟨some ⟨some "123-45-6789", none⟩, [("70010", "ANCILLARY")], [⟨"123456789", "99213", 50⟩], []⟩
        [⟨"99213", some 2, none, none⟩, ⟨"70010", some 1, none, none⟩] none).results :=
  C6_rate_resolver_aggregation
    ⟨some ⟨some "123-45-6789", none⟩, [("70010", "ANCILLARY")], [⟨"123456789", "99213", 50⟩], []⟩
    [⟨"99213", some 2, none, none⟩, ⟨"70010", some 1, none, none⟩] none ⟨some "123-45-6789", none⟩ rfl

/-- Every successful run of the try-block body logs exactly one verdict. -/
theorem run_pipeline_ok_len (env : Env) (fn now : String) (vs : List Verdict)
    (h : run_pipeline env fn now = Except.ok vs) : vs.length = 1 := by
  unfold run_pipeline at h
  dsimp only at h
  repeat' split at h
  all_goals (cases h <;> rfl)

/-- C7: the orchestrator catches any exception raised by a stage and turns
it into one FAIL verdict of validation_type "process_error" built from the
unfilled base result, so exactly one verdict is produced per processed
claim. -/
theorem C7_process_error_boundary (env : Env) (fn now : String) :
    (process_file env fn now).length = 1 ∧
    (∀ e, run_pipeline env fn now = Except.error e →
      process_file env fn now = [⟨fn, now, none, none, none, "FAIL", "process_error", VDetails.err e⟩]) := by
  constructor
  · unfold process_file
    cases hr : run_pipeline env fn now with
    | ok vs => simpa using run_pipeline_ok_len env fn now vs hr
    | error e => rfl
  · intro e he
    simp [process_file, he]

/-- Witness for C7 at an environment whose file read raises "boom". -/
theorem C7_process_error_boundary_witness :
    (process_file env_boom "f.json" "2025-01-01 10:00:00").length = 1 ∧
    process_file env_boom "f.json" "2025-01-01 10:00:00"
      = [⟨"f.json", "2025-01-01 10:00:00", none, none, none, "FAIL", "process_error", VDetails.err "boom"⟩] :=
  ⟨(C7_process_error_boundary env_boom "f.json" "2025-01-01 10:00:00").1,
    (C7_process_error_boundary env_boom "f.json" "2025-01-01 10:00:00").2 "boom" rfl⟩

/-- C8: the claim as written is false on the code.  Two runs of the
pipeline on the same claim and reference snapshot, taken one second apart,
produce verdicts that are not equal on all fields: the logged timestamp
comes from the wall clock of each run. -/
theorem C8_pipeline_not_timestamp_invariant :
    process_file env_boom "f.json" "2025-01-01 10:00:00"
      ≠ process_file env_boom "f.json" "2025-01-01 10:00:01" := by
  decide

/-- C8 (amended): two runs of the pipeline on the same claim, file name and
reference snapshot yield verdicts equal on every field except the wall
clock timestamp; with equal clock readings the verdicts are identical. -/
theorem C8_pipeline_deterministic_up_to_timestamp (env : Env) (fn t1 t2 : String) :
    (process_file env fn t1).map strip_timestamp = (process_file env fn t2).map strip_timestamp := by
  obtain ⟨fr, pr, fd, br, olr, rr, dp, bc⟩ := env
  unfold process_file run_pipeline
  cases fr with
  | error e => simp [strip_timestamp]
  | ok hc =>
  cases pr with
  | error e => simp [strip_timestamp]
  | ok pv =>
  cases fd with
  | error e => simp [strip_timestamp]
  | ok pat =>
  dsimp only
  by_cases h1 : (modifier_validate hc.line_items).status = "FAIL"
  · simp [h1, strip_timestamp]
  · simp only [h1, if_false, if_neg h1]
    by_cases h2 : (units_validate dp hc.line_items).status = "FAIL"
    · simp [h2, strip_timestamp]
    · simp only [h2, if_neg h2]
      cases br with
      | error e => simp [strip_timestamp]
      | ok b =>
      cases b with
      | true => simp [strip_timestamp]
      | false =>
      simp only []
      cases olr with
      | error e => simp [strip_timestamp]
      | ok olv =>
      by_cases h3 : (LineItemValidator.validate ⟨dp, bc⟩ hc.line_items olv).status = "FAIL"
      · simp [h3, strip_timestamp]
      · simp only [h3, if_neg h3]
        cases rr with
        | error e => simp [strip_timestamp]
        | ok rctx =>
        by_cases h4 : (rate_validate rctx hc.line_items hc.order_id).status = "FAIL"
        · simp [h4, strip_timestamp]
        · simp [h4, strip_timestamp]

/-- A single rate line resolved with a NULL cleaned TIN never has rate
source PPO. -/
theorem rate_line_no_ppo (ctx : RateCtx) (oid : Option String) (line : LineItem) :
    (rate_line ctx none oid line).rate_source ≠ some "PPO" := by
  unfold rate_line
  dsimp only
  repeat' split
  all_goals simp_all [ppo_lookup]

/-- No result of the rate loop run with a NULL cleaned TIN has rate source
PPO. -/
theorem rate_loop_no_ppo (ctx : RateCtx) (oid : Option String) (ls : List LineItem) :
    ∀ r, r ∈ (rate_loop ctx none oid ls).1 → r.rate_source ≠ some "PPO" := by
  induction ls with
  | nil => intro r hr; simp [rate_loop] at hr
  | cons l rest ih =>
    intro r hr
    simp only [rate_loop, List.mem_cons] at hr
    rcases hr with hr | hr
    · rw [hr]; exact rate_line_no_ppo ctx oid l
    · exact ih r hr

/-- C10: a TIN that does not reduce to exactly 9 digits cleans to None, and
with a None cleaned TIN the negotiated-rate source matches no line: the
resolver still yields one result per line with no whole-claim reason, each
line resolving through a non-PPO source or failing individually. -/
theorem C10_bad_tin_skips_ppo_source :
    (∀ t : String, ¬ tin_nine_digits t → clean_tin (some t) = none) ∧
    (∀ (ctx : RateCtx) (lines : List LineItem) (oid : Option String) (p : ProviderDetails),
      ctx.provider = some p → clean_tin p.tin = none →
      (rate_validate ctx lines oid).reason = none ∧
      (rate_validate ctx lines oid).results.length = lines.length ∧
      ∀ r, r ∈ (rate_validate ctx lines oid).results → r.rate_source ≠ some "PPO") := by
  constructor
  · intro t h
    unfold tin_nine_digits at h
    unfold clean_tin
    dsimp only
    rw [if_neg h]
  · intro ctx lines oid p hp hct
    unfold rate_validate
    rw [hp]
    dsimp only
    rw [hct]
    exact ⟨rfl, rate_loop_length ctx none oid lines, rate_loop_no_ppo ctx oid lines⟩

/-- Witness for C10: TIN 12-345 cleans to None, and a one-line claim with a
PPO row present still resolves through OTA, not PPO. -/
theorem C10_bad_tin_skips_ppo_source_witness :
    clean_tin (some "12-345") = none ∧
    (rate_validate ⟨some ⟨some "12-345", none⟩, [], [⟨"12345", "99213", 50⟩], [⟨"ORD1", "99213", 75⟩]⟩
      [⟨"99213", some 1, none, none⟩] (some "ORD1")).reason = none ∧
    (rate_validate ⟨some ⟨some "12-345", none⟩, [], [⟨"12345", "99213", 50⟩], [⟨"ORD1", "99213", 75⟩]⟩
      [⟨"99213", some 1, none, none⟩] (some "ORD1")).results.length = 1 ∧
    ∀ r, r ∈ (rate_validate ⟨some ⟨some "12-345", none⟩, [], [⟨"12345", "99213", 50⟩], [⟨"ORD1", "99213", 75⟩]⟩
      [⟨"99213", some 1, none, none⟩] (some "ORD1")).results → r.rate_source ≠ some "PPO" :=
  ⟨C10_bad_tin_skips_ppo_source.1 "12-345" (by unfold tin_nine_digits; decide),
    C10_bad_tin_skips_ppo_source.2
      ⟨some ⟨some "12-345", none⟩, [], [⟨"12345", "99213", 50⟩], [⟨"ORD1", "99213", 75⟩]⟩
      [⟨"99213", some 1, none, none⟩] (some "ORD1") ⟨some "12-345", none⟩ rfl (by decide)⟩
